import Mathlib

/-!
Shallow embedding of the WebSocket client in `ws.go` / `ws_option.go` of the
`apic` repository, together with theorems settling the spec claims about its
connection lifecycle, write path, stale detector, keepalive and backoff.

Modelling conventions:
* Go errors become the inductive `WSError`; `nil` errors are `Option.none`.
* Timestamps are `Int` (one unit = one second); the Go zero `time.Time` is
  modelled as the instant `0`, real timestamps are positive.
* The per-connection event loop of `run` consumes a list of `LEvent`s: each
  event is one arm of the `select` becoming ready (inbound message, stale
  ticker tick, keepalive tick interleaved from the ping goroutine, reader
  error, context cancellation).
* Environment choices (dial outcomes, handler results, event order) are
  explicit parameters, so every run of the client is a deterministic function
  of its environment.
-/

namespace Apic

/-- Errors produced along the paths of `ws.go` and `error.go`. The `Nat`
payload distinguishes otherwise-opaque underlying errors. -/
inductive WSError where
  | maxAttempts (n : Nat)
  | dialOptions (code : Nat)
  | endpoint (code : Nat)
  | dial (code : Nat)
  | onOpenFail (code : Nat)
  | handlerFail (code : Nat)
  | readFail (code : Nat)
  | limiter (code : Nat)
  | writeFail (code : Nat)
  | encodeFail (code : Nat)
  | notConnected
  deriving DecidableEq

/-- Embeds the `errors.Is(err, MaxAttemptsError)` test in `Start`: `connect`
wraps `MaxAttemptsError` with `fmt.Errorf("%d: %w", ...)`, which `errors.Is`
unwraps, so the test holds exactly for the `maxAttempts` constructor. -/
def isMaxAttemptsError : Option WSError → Bool
  | some (WSError.maxAttempts _) => true
  | _ => false

/-- Environment choices for one execution of `connect`: results of
`dialOptionsFunc`, `endpointFunc` and `websocket.Dial` (`none` = success). -/
structure DialEnv where
  dialOptionsErr : Option Nat
  endpointErr : Option Nat
  dialErr : Option Nat
  deriving DecidableEq

/-- Outcome of `connect`: its returned error (`none` = a connection was
assigned), the value of `currentAttempts` after the deferred increment, and
whether `websocket.Dial` was actually invoked. -/
structure ConnectResult where
  err : Option WSError
  attempts : Nat
  dialed : Bool
  deriving DecidableEq

/-- Embedding of `(*WSClient).connect` (ws.go): the deferred
`c.currentAttempts++` runs on every path, the ceiling check
`maxAttempts > 0 && currentAttempts >= maxAttempts` precedes any dialing, and
dial-options / endpoint / dial failures return in that order. -/
def connect (maxAttempts : Nat) (env : DialEnv) (currentAttempts : Nat) : ConnectResult :=
  if maxAttempts > 0 ∧ currentAttempts ≥ maxAttempts then
    ⟨some (WSError.maxAttempts currentAttempts), currentAttempts + 1, false⟩
  else
    match env.dialOptionsErr with
    | some c => ⟨some (WSError.dialOptions c), currentAttempts + 1, false⟩
    | none =>
      match env.endpointErr with
      | some c => ⟨some (WSError.endpoint c), currentAttempts + 1, false⟩
      | none =>
        match env.dialErr with
        | some c => ⟨some (WSError.dial c), currentAttempts + 1, true⟩
        | none => ⟨none, currentAttempts + 1, true⟩

/-- The fixed grace window of the stale check in `run`:
`connectedAt.After(time.Now().Add(time.Minute * -1))`, i.e. 60 seconds. -/
def graceWindow : Int := 60

/-- The skip condition of the stale-tick arm in `run`:
`lastMessageTimestamp.IsZero() && connectedAt.After(time.Now().Add(time.Minute*-1))`.
`lastMsg = none` models the zero timestamp. -/
def staleSkip (connectedAt now : Int) (lastMsg : Option Int) : Bool :=
  lastMsg.isNone && decide (now - graceWindow < connectedAt)

/-- Whether one stale-ticker tick at time `now` force-closes the connection,
per the `staleTicker.C` arm of `run`: no close when `staleMessageTimeout` is
zero or the grace skip applies; otherwise close iff
`lastMessageTimestamp.Before(now - staleMessageTimeout)`, where the zero
timestamp (instant 0) is before every positive instant. -/
def staleFires (staleTimeout : Int) (connectedAt now : Int) (lastMsg : Option Int) : Bool :=
  if staleTimeout = 0 then false
  else if staleSkip connectedAt now lastMsg then false
  else
    match lastMsg with
    | none => decide (0 < now - staleTimeout)
    | some m => decide (m < now - staleTimeout)

/-- One event servicing of the per-connection `select` loop in `run`, or a
tick of the concurrently running ping goroutine interleaved into the trace. -/
inductive LEvent where
  | msg (id : Nat) (now : Int)
  | staleTick (now : Int)
  | pingTick (result : Option Nat)
  | readFail (code : Nat)
  | ctxDone
  deriving DecidableEq

/-- How the event loop of `run` ended: with an error (handler or read error),
by cancellation (`run` returns nil), or not at all within the given trace. -/
inductive LoopExit where
  | err (e : WSError)
  | canceled
  | stuck
  deriving DecidableEq

/-- Observations from one execution of the event loop: its exit, message ids
passed to the handler in order, number of stale force-closes, and number of
ping-handler invocations. -/
structure LoopResult where
  exit : LoopExit
  delivered : List Nat
  staleCloses : Nat
  pingCalls : Nat
  deriving DecidableEq

/-- Static configuration consumed by the event loop: the message handler
(`some code` = handler error), `staleMessageTimeout` (0 = disabled), and
whether a ping interval was configured. -/
structure LoopConfig where
  handler : Nat → Option Nat
  staleTimeout : Int
  pingConfigured : Bool

/-- Embedding of the `for { select { ... } }` loop of `run` plus the ping
goroutine, folded over an event trace. State: timestamp of the last inbound
message (`none` = zero time), whether `staleTicker.Stop()` has run (a stopped
ticker produces no effect), whether the ping goroutine has returned, and the
accumulating observations. -/
def eventLoop (cfg : LoopConfig) (connectedAt : Int) :
    List LEvent → Option Int → Bool → Bool → List Nat → Nat → Nat → LoopResult
  | [], _, _, _, d, cl, pg => ⟨LoopExit.stuck, d, cl, pg⟩
  | LEvent.msg id now :: rest, _, ts, ps, d, cl, pg =>
    match cfg.handler id with
    | some c => ⟨LoopExit.err (WSError.handlerFail c), d ++ [id], cl, pg⟩
    | none => eventLoop cfg connectedAt rest (some now) ts ps (d ++ [id]) cl pg
  | LEvent.staleTick now :: rest, lastMsg, ts, ps, d, cl, pg =>
    if ts then
      eventLoop cfg connectedAt rest lastMsg ts ps d cl pg
    else if staleFires cfg.staleTimeout connectedAt now lastMsg then
      eventLoop cfg connectedAt rest lastMsg true ps d (cl + 1) pg
    else
      eventLoop cfg connectedAt rest lastMsg ts ps d cl pg
  | LEvent.pingTick res :: rest, lastMsg, ts, ps, d, cl, pg =>
    if cfg.pingConfigured && !ps then
      match res with
      | some _ => eventLoop cfg connectedAt rest lastMsg ts true d cl (pg + 1)
      | none => eventLoop cfg connectedAt rest lastMsg ts ps d cl (pg + 1)
    else
      eventLoop cfg connectedAt rest lastMsg ts ps d cl pg
  | LEvent.readFail code :: _, _, _, _, d, cl, pg =>
    ⟨LoopExit.err (WSError.readFail code), d, cl, pg⟩
  | LEvent.ctxDone :: _, _, _, _, d, cl, pg =>
    ⟨LoopExit.canceled, d, cl, pg⟩

/-- Client configuration relevant to `run`: the attempts ceiling, the loop
configuration, and the results of the `onOpen` / `onClose` callbacks
(`some code` = the callback returns an error). -/
structure WSConfig where
  maxAttempts : Nat
  loopCfg : LoopConfig
  onOpenErr : Option Nat
  onCloseErr : Option Nat

/-- Environment choices for one connection attempt: the dial outcomes, the
time the connection is established, and the event trace of its loop. -/
structure AttemptEnv where
  dialEnv : DialEnv
  connectedAt : Int
  events : List LEvent

/-- Return status of one `run`: a returned value (`none` = nil error), or
stuck when the trace ends before the loop returns. -/
inductive RunRet where
  | stuck
  | ret (e : Option WSError)
  deriving DecidableEq

/-- Observations from one execution of `run`. -/
structure RunResult where
  ret : RunRet
  attempts : Nat
  dialed : Bool
  onOpenCalled : Bool
  onCloseCalls : Nat
  delivered : List Nat
  staleCloses : Nat
  pingCalls : Nat
  deriving DecidableEq

/-- Embedding of `(*WSClient).run`: `connect` first (its error returned
as-is); on success `currentAttempts` is reset to 0 and `onOpen` runs — its
error returns immediately, and only afterwards is the `onClose` defer
registered, so `onClose` runs exactly once on every later return (its own
error only logged). The loop exit maps to the return value of `run`: an error
exits with that error, cancellation returns nil. -/
def runAttempt (cfg : WSConfig) (env : AttemptEnv) (currentAttempts : Nat) : RunResult :=
  match connect cfg.maxAttempts env.dialEnv currentAttempts with
  | ⟨some e, n, dl⟩ => ⟨RunRet.ret (some e), n, dl, false, 0, [], 0, 0⟩
  | ⟨none, _, dl⟩ =>
    match cfg.onOpenErr with
    | some code => ⟨RunRet.ret (some (WSError.onOpenFail code)), 0, dl, true, 0, [], 0, 0⟩
    | none =>
      match eventLoop cfg.loopCfg env.connectedAt env.events none false false [] 0 0 with
      | ⟨LoopExit.err e, d, cl, pg⟩ => ⟨RunRet.ret (some e), 0, dl, true, 1, d, cl, pg⟩
      | ⟨LoopExit.canceled, d, cl, pg⟩ => ⟨RunRet.ret none, 0, dl, true, 1, d, cl, pg⟩
      | ⟨LoopExit.stuck, d, cl, pg⟩ => ⟨RunRet.stuck, 0, dl, true, 0, d, cl, pg⟩

/-- Return status of `Start`: a returned value, a run that never returned, or
the supply of per-attempt environments ran out while the loop would continue. -/
inductive StartRet where
  | ret (e : Option WSError)
  | stuck
  | outOfFuel
  deriving DecidableEq

/-- Observations from one execution of `Start`: its return, total number of
`websocket.Dial` invocations, the terminating errors the reconnect policy was
consulted with (in order), and the final `currentAttempts`. -/
structure StartResult where
  ret : StartRet
  dials : Nat
  policyObs : List (Option WSError)
  attempts : Nat
  deriving DecidableEq

/-- Embedding of the `for` loop of `(*WSClient).Start`: each iteration runs
`run`; a `MaxAttemptsError` result returns before the policy is consulted;
otherwise `shouldReconnect` is consulted with the terminating error and its
`false` returns that error, `true` loops. -/
def startLoop (cfg : WSConfig) (policy : Option WSError → Bool) :
    List AttemptEnv → Nat → Nat → List (Option WSError) → StartResult
  | [], attempts, dials, obs => ⟨StartRet.outOfFuel, dials, obs, attempts⟩
  | env :: rest, attempts, dials, obs =>
    match runAttempt cfg env attempts with
    | ⟨RunRet.stuck, n, dl, _, _, _, _, _⟩ =>
      ⟨StartRet.stuck, dials + (if dl then 1 else 0), obs, n⟩
    | ⟨RunRet.ret e, n, dl, _, _, _, _, _⟩ =>
      if isMaxAttemptsError e then
        ⟨StartRet.ret e, dials + (if dl then 1 else 0), obs, n⟩
      else if policy e then
        startLoop cfg policy rest n (dials + (if dl then 1 else 0)) (obs ++ [e])
      else
        ⟨StartRet.ret e, dials + (if dl then 1 else 0), obs ++ [e], n⟩

/-- `Start` on a fresh client: `currentAttempts` starts at its zero value. -/
def start (cfg : WSConfig) (policy : Option WSError → Bool) (envs : List AttemptEnv) : StartResult :=
  startLoop cfg policy envs 0 0 []

/-- Steps the write path may take, in order of occurrence. -/
inductive WriteStep where
  | limiterWait
  | connCheckSend
  | transportWrite
  | encodeStep
  deriving DecidableEq

/-- Environment choices for one call to `Send`: whether a write limiter is
configured, the result of `writeLimiter.Wait(ctx)` (`some code` = the wait
returns an error, e.g. the context error on cancellation), the connection
snapshot taken inside `Send`, and the transport write result. -/
structure SendEnv where
  limiterConfigured : Bool
  limiterWaitErr : Option Nat
  connAtSend : Bool
  transportWriteErr : Option Nat
  deriving DecidableEq

/-- Embedding of `(*WSClient).Send`: when a limiter is configured the wait
runs first and its error is returned; only then is the connection snapshot
checked (`ErrNotConnected` when nil), and only then does the transport write
run. The returned trace records the steps taken in order. -/
def sendModel (env : SendEnv) : Option WSError × List WriteStep :=
  if env.limiterConfigured then
    match env.limiterWaitErr with
    | some c => (some (WSError.limiter c), [WriteStep.limiterWait])
    | none =>
      if env.connAtSend then
        match env.transportWriteErr with
        | some c =>
          (some (WSError.writeFail c),
           [WriteStep.limiterWait, WriteStep.connCheckSend, WriteStep.transportWrite])
        | none =>
          (none, [WriteStep.limiterWait, WriteStep.connCheckSend, WriteStep.transportWrite])
      else (some WSError.notConnected, [WriteStep.limiterWait, WriteStep.connCheckSend])
  else
    if env.connAtSend then
      match env.transportWriteErr with
      | some c => (some (WSError.writeFail c), [WriteStep.connCheckSend, WriteStep.transportWrite])
      | none => (none, [WriteStep.connCheckSend, WriteStep.transportWrite])
    else (some WSError.notConnected, [WriteStep.connCheckSend])

/-- Environment choices for one call to `Write`: the connection snapshot
taken at the top of `Write`, the encoder result, and the `Send` environment
used if `Write` reaches `Send`. -/
structure WriteEnv where
  connAtWrite : Bool
  encodeErr : Option Nat
  sendEnv : SendEnv
  deriving DecidableEq

/-- Embedding of `(*WSClient).Write`: the connection snapshot is checked
before anything else — a nil connection returns `ErrNotConnected` at once,
before the encoder and before `Send` (hence before any limiter wait); an
encoder error is returned without touching the transport; otherwise `Send`
runs. -/
def writeModel (env : WriteEnv) : Option WSError × List WriteStep :=
  if env.connAtWrite then
    match env.encodeErr with
    | some c => (some (WSError.encodeFail c), [WriteStep.encodeStep])
    | none =>
      let s := sendModel env.sendEnv
      (s.1, WriteStep.encodeStep :: s.2)
  else (some WSError.notConnected, [])

/-- Embedding of the delay computed by `WithReconnectBackoff`
(ws_option.go): `time.Duration((16^count)+mills)` milliseconds capped at
`maxBackoff`, where the Go operator `^` is bitwise XOR and `mills` is the jitter drawn
from `[5, 998]`. -/
def backoffDelayMillis (count jitter maxBackoff : Nat) : Nat :=
  min ((16 ^^^ count) + jitter) maxBackoff

/-- An event that cannot make the loop of `run` return: an inbound message
the handler accepts, a stale-ticker tick, or a keepalive tick. -/
def nonTerm (cfg : LoopConfig) : LEvent → Bool
  | LEvent.msg id _ => cfg.handler id == none
  | LEvent.staleTick _ => true
  | LEvent.pingTick _ => true
  | LEvent.readFail _ => false
  | LEvent.ctxDone => false

/-- The message id delivered by a single event, if any. -/
def evMsg : LEvent → List Nat
  | LEvent.msg id _ => [id]
  | LEvent.staleTick _ => []
  | LEvent.pingTick _ => []
  | LEvent.readFail _ => []
  | LEvent.ctxDone => []

/-- Ids of the inbound-message events of a trace, in order. -/
def msgIds : List LEvent → List Nat
  | [] => []
  | LEvent.msg id _ :: rest => id :: msgIds rest
  | LEvent.staleTick _ :: rest => msgIds rest
  | LEvent.pingTick _ :: rest => msgIds rest
  | LEvent.readFail _ :: rest => msgIds rest
  | LEvent.ctxDone :: rest => msgIds rest

/-- An attempt environment whose dial options and endpoint resolve but whose
`websocket.Dial` fails. -/
def dialFails (env : AttemptEnv) : Prop :=
  env.dialEnv.dialOptionsErr = none ∧ env.dialEnv.endpointErr = none ∧
    env.dialEnv.dialErr.isSome = true

instance (env : AttemptEnv) : Decidable (dialFails env) := by
  unfold dialFails; infer_instance

/-- The no-op default message handler of `NewWSClient`. -/
def okHandler : Nat → Option Nat := fun _ => none

/-- Loop configuration of a default client: no-op handler, no staleness
timeout, no ping interval. -/
def plainLoopCfg : LoopConfig := ⟨okHandler, 0, false⟩

/-- A reconnect policy that always accepts, as built by
`WithReconnectBackoff` (it always returns true after sleeping). -/
def policyTrue : Option WSError → Bool := fun _ => true

/-- The default reconnect policy of `NewWSClient`: always decline. -/
def policyFalse : Option WSError → Bool := fun _ => false

/-- Whether an error observed by the policy is a dial error. -/
def isDialObs : Option WSError → Bool
  | some (WSError.dial _) => true
  | _ => false

/-- A dial environment where only `websocket.Dial` fails, with code `c`. -/
def dialFailEnv (c : Nat) : DialEnv := ⟨none, none, some c⟩

/-- A dial environment where the dial succeeds. -/
def dialOkEnv : DialEnv := ⟨none, none, none⟩

/-- Client of the C8 scenario: attempts ceiling 5, defaults otherwise. -/
def cfg8 : WSConfig := ⟨5, plainLoopCfg, none, none⟩

/-- C8 scenario, attempt 1: endpoint unreachable. -/
def env8a : AttemptEnv := ⟨dialFailEnv 1, 1000, []⟩

/-- C8 scenario, attempt 2: endpoint unreachable. -/
def env8b : AttemptEnv := ⟨dialFailEnv 2, 1000, []⟩

/-- C8 scenario, attempt 3: dial succeeds; the connection later dies with a
read error. -/
def env8c : AttemptEnv := ⟨dialOkEnv, 1000, [LEvent.readFail 9]⟩

/-- The attempt environments of the C8 scenario. -/
def envs8 : List AttemptEnv := [env8a, env8b, env8c]

/-- Client with no ceiling and default callbacks, for the cancellation
scenario of C2. -/
def cfg2 : WSConfig := ⟨0, plainLoopCfg, none, none⟩

/-- C2 scenario: connection succeeds, one message arrives, then the context
is canceled. -/
def env2 : AttemptEnv := ⟨dialOkEnv, 1000, [LEvent.msg 1 1001, LEvent.ctxDone]⟩

/-- C2 scenario, second attempt environment: the dial fails. -/
def env2b : AttemptEnv := ⟨dialFailEnv 7, 1000, []⟩

/-- Loop configuration with a ping interval configured. -/
def pingCfg : LoopConfig := ⟨okHandler, 0, true⟩

/-- Client with a ping interval configured, for the C3 scenario. -/
def cfg3 : WSConfig := ⟨0, pingCfg, none, none⟩

/-- C3 scenario: the ping handler errors on the first tick, a second tick
follows, then a message arrives, then the context is canceled. -/
def env3 : AttemptEnv :=
  ⟨dialOkEnv, 1000,
   [LEvent.pingTick (some 7), LEvent.pingTick (some 8), LEvent.msg 1 1001, LEvent.ctxDone]⟩

/-- Client whose on-open callback fails, for the C6 scenario. -/
def cfg6 : WSConfig := ⟨0, plainLoopCfg, some 3, none⟩

/-- C6 scenario: a successful dial. -/
def env6 : AttemptEnv := ⟨dialOkEnv, 1000, []⟩

/-- Loop configuration with staleness timeout 10, no-op handler, no ping. -/
def staleCfg : LoopConfig := ⟨okHandler, 10, false⟩

/-- Client with staleness timeout 10, for the C7 scenario. -/
def cfg7 : WSConfig := ⟨0, staleCfg, none, none⟩

/-- C7 scenario: connect at time 1000, a message at 1001, a stale tick at
1012 (the connection is 12 time units old, within the grace window), then the
forced close surfaces as a read error. -/
def env7 : AttemptEnv :=
  ⟨dialOkEnv, 1000, [LEvent.msg 1 1001, LEvent.staleTick 1012, LEvent.readFail 4]⟩

/-- Client with attempts ceiling 2 and defaults otherwise, for the C1
witness. -/
def cfg1w : WSConfig := ⟨2, plainLoopCfg, none, none⟩

/-- C1 witness, first-attempt environment: the dial fails with code 3. -/
def env1w : AttemptEnv := ⟨dialFailEnv 3, 0, []⟩

/-- C1 witness: three attempt environments whose dials all fail. -/
def envs1w : List AttemptEnv :=
  [⟨dialFailEnv 1, 0, []⟩, ⟨dialFailEnv 1, 0, []⟩, ⟨dialFailEnv 1, 0, []⟩]

/-- A message handler that fails on message id 2 with code 11. -/
def failAtTwo : Nat → Option Nat := fun id => if id = 2 then some 11 else none

/-- Client whose handler fails on message 2, for the C5 witness. -/
def cfg5w : WSConfig := ⟨0, ⟨failAtTwo, 0, false⟩, none, none⟩

/-- C5 witness environment: three messages arrive; the handler fails on the
second. -/
def env5w : AttemptEnv :=
  ⟨dialOkEnv, 1000, [LEvent.msg 1 1001, LEvent.msg 2 1002, LEvent.msg 3 1003]⟩

/-- C9: the delay of the reconnect-backoff helper, ((16 XOR count) + jitter)
milliseconds capped at maxBackoff, is not monotone in the attempt count:
there are counts c1 < c2 whose computed delay strictly decreases at equal
jitter (16 XOR 1 = 17 but 16 XOR 16 = 0). -/
theorem C9_backoff_not_monotone :
    ∃ c1 c2 jitter maxB, c1 < c2 ∧ 5 ≤ jitter ∧ jitter ≤ 998 ∧
      backoffDelayMillis c2 jitter maxB < backoffDelayMillis c1 jitter maxB :=
  ⟨1, 16, 5, 1000000, by decide, by decide, by decide, by decide⟩

/-- C4: `Write` with no active connection fails at once with
`ErrNotConnected`: its trace is empty, so it never reaches the rate limiter
and never touches the transport. -/
theorem C4_write_not_connected (env : WriteEnv) (h : env.connAtWrite = false) :
    (writeModel env).1 = some WSError.notConnected ∧
    (writeModel env).2 = [] ∧
    WriteStep.limiterWait ∉ (writeModel env).2 ∧
    WriteStep.transportWrite ∉ (writeModel env).2 := by
  simp [writeModel, h]

/-- Witness for C4 at a concrete environment with a configured limiter. -/
theorem C4_write_not_connected_witness :
    (writeModel ⟨false, none, ⟨true, none, false, none⟩⟩).1 = some WSError.notConnected ∧
    (writeModel ⟨false, none, ⟨true, none, false, none⟩⟩).2 = [] ∧
    WriteStep.limiterWait ∉ (writeModel ⟨false, none, ⟨true, none, false, none⟩⟩).2 ∧
    WriteStep.transportWrite ∉ (writeModel ⟨false, none, ⟨true, none, false, none⟩⟩).2 :=
  C4_write_not_connected ⟨false, none, ⟨true, none, false, none⟩⟩ rfl

/-- C10: when a write limiter is configured, `Send` waits on the limiter
before checking the connection snapshot: with no active connection the call
first blocks in the wait (the first step of its trace), returns the wait
error if the wait is aborted, and only otherwise returns `ErrNotConnected`. -/
theorem C10_send_limiter_before_conn_check (env : SendEnv)
    (h1 : env.limiterConfigured = true) (h2 : env.connAtSend = false) :
    (env.limiterWaitErr = none → (sendModel env).1 = some WSError.notConnected) ∧
    (∀ c, env.limiterWaitErr = some c → (sendModel env).1 = some (WSError.limiter c)) ∧
    (sendModel env).2.head? = some WriteStep.limiterWait := by
  cases henv : env.limiterWaitErr with
  | none => simp [sendModel, h1, h2, henv]
  | some c => simp [sendModel, h1, h2, henv]

/-- Witness for C10 at a concrete environment whose limiter wait is aborted
by cancellation. -/
theorem C10_send_limiter_before_conn_check_witness :
    ((⟨true, some 4, false, none⟩ : SendEnv).limiterWaitErr = none →
      (sendModel ⟨true, some 4, false, none⟩).1 = some WSError.notConnected) ∧
    (∀ c, (⟨true, some 4, false, none⟩ : SendEnv).limiterWaitErr = some c →
      (sendModel ⟨true, some 4, false, none⟩).1 = some (WSError.limiter c)) ∧
    (sendModel ⟨true, some 4, false, none⟩).2.head? = some WriteStep.limiterWait :=
  C10_send_limiter_before_conn_check ⟨true, some 4, false, none⟩ rfl rfl

/-- C2 counterexample: in the C2 scenario the attempt canceled by the
context does end with a nil error and on-close runs once, but with a policy
that always accepts, `Start` consults the reconnect policy with that nil
error (nil appears in the consultation list) and dials a second time instead
of returning — refuting that the policy is not consulted on cancellation. -/
theorem C2_counterexample :
    (runAttempt cfg2 env2 0).ret = RunRet.ret none ∧
    (runAttempt cfg2 env2 0).onCloseCalls = 1 ∧
    none ∈ (start cfg2 policyTrue [env2, env2b]).policyObs ∧
    (start cfg2 policyTrue [env2, env2b]).dials = 2 := by
  decide

/-- C3 counterexample: in the C3 scenario the ping handler is invoked once
and errors, yet a later message is still delivered and the attempt ends by
cancellation with a nil error — the ping-handler error did not terminate the
connection attempt. -/
theorem C3_counterexample :
    (runAttempt cfg3 env3 0).pingCalls = 1 ∧
    (runAttempt cfg3 env3 0).delivered = [1] ∧
    (runAttempt cfg3 env3 0).ret = RunRet.ret none := by
  decide

/-- C6 counterexample: when on-open runs but returns an error, the attempt
terminates with that error and on-close is never invoked, because the
on-close defer in `run` is registered only after `onOpen` succeeds. -/
theorem C6_counterexample :
    (runAttempt cfg6 env6 0).onOpenCalled = true ∧
    (runAttempt cfg6 env6 0).ret = RunRet.ret (some (WSError.onOpenFail 3)) ∧
    (runAttempt cfg6 env6 0).onCloseCalls = 0 := by
  decide

/-- C7 counterexample: with staleness timeout 10, a connection that received
a message and then went silent past the timeout is force-closed at age 12,
well inside the 60-unit grace window — the grace period only protects
connections that have not yet received any message. -/
theorem C7_counterexample :
    (runAttempt cfg7 env7 0).staleCloses = 1 ∧
    env7.connectedAt = 1000 ∧ (1012 : Int) - 1000 < graceWindow := by
  decide

/-- C8 counterexample: in the concrete scenario (dial fails twice, succeeds
on the third attempt, policy retries unconditionally, ceiling 5) the policy
observes exactly 2 dial errors, not 3. -/
theorem C8_counterexample :
    List.countP isDialObs (start cfg8 policyTrue envs8).policyObs = 2 ∧
    ¬ List.countP isDialObs (start cfg8 policyTrue envs8).policyObs = 3 := by
  decide

/-- C8 amended: in that scenario exactly 3 dials occur of which the first
two produce the only 2 dial errors the policy observes, the third attempt
reaches the connected state (on-open runs), and the attempt counter resets
to 0 on success. -/
theorem C8_amended_two_dial_errors :
    (start cfg8 policyTrue envs8).dials = 3 ∧
    (start cfg8 policyTrue envs8).policyObs =
      [some (WSError.dial 1), some (WSError.dial 2), some (WSError.readFail 9)] ∧
    List.countP isDialObs (start cfg8 policyTrue envs8).policyObs = 2 ∧
    (runAttempt cfg8 env8c 2).onOpenCalled = true ∧
    (runAttempt cfg8 env8c 2).attempts = 0 := by
  decide

/-- The ceiling branch of `connect`: when it trips, no dial happens and the
wrapped `MaxAttemptsError` carries the current attempt count. -/
lemma connect_max (maxA a : Nat) (env : DialEnv) (h : maxA > 0 ∧ a ≥ maxA) :
    connect maxA env a = ⟨some (WSError.maxAttempts a), a + 1, false⟩ := by
  unfold connect
  rw [if_pos h]

/-- A `connect` whose environment resolves options and endpoint and whose
dial succeeds, below the ceiling. -/
lemma connect_ok_fields (maxA a : Nat) (env : DialEnv) (h : ¬(maxA > 0 ∧ a ≥ maxA))
    (h1 : env.dialOptionsErr = none) (h2 : env.endpointErr = none)
    (h3 : env.dialErr = none) :
    connect maxA env a = ⟨none, a + 1, true⟩ := by
  unfold connect
  rw [if_neg h, h1, h2, h3]

/-- A `connect` whose environment resolves options and endpoint but whose
dial fails, below the ceiling. -/
lemma connect_dial_fail_fields (maxA a c : Nat) (env : DialEnv) (h : ¬(maxA > 0 ∧ a ≥ maxA))
    (h1 : env.dialOptionsErr = none) (h2 : env.endpointErr = none)
    (h3 : env.dialErr = some c) :
    connect maxA env a = ⟨some (WSError.dial c), a + 1, true⟩ := by
  unfold connect
  rw [if_neg h, h1, h2, h3]

/-- At `currentAttempts = 0` the ceiling check of `connect` can never trip,
so a successful dial environment always connects. -/
lemma connect_zero_ok (maxA : Nat) (env : DialEnv) (h1 : env = dialOkEnv) :
    connect maxA env 0 = ⟨none, 1, true⟩ := by
  subst h1
  exact connect_ok_fields maxA 0 dialOkEnv (by omega) rfl rfl rfl

/-- Reduction of `runAttempt` when `connect` returns an error. -/
lemma runAttempt_connect_err (cfg : WSConfig) (env : AttemptEnv) (a : Nat)
    (e : WSError) (n : Nat) (dl : Bool)
    (h : connect cfg.maxAttempts env.dialEnv a = ⟨some e, n, dl⟩) :
    runAttempt cfg env a = ⟨RunRet.ret (some e), n, dl, false, 0, [], 0, 0⟩ := by
  unfold runAttempt
  rw [h]

/-- Reduction of `runAttempt` when the connection opens but `onOpen` fails. -/
lemma runAttempt_onOpen_err (cfg : WSConfig) (env : AttemptEnv) (a n : Nat) (dl : Bool)
    (code : Nat)
    (hc : connect cfg.maxAttempts env.dialEnv a = ⟨none, n, dl⟩)
    (ho : cfg.onOpenErr = some code) :
    runAttempt cfg env a =
      ⟨RunRet.ret (some (WSError.onOpenFail code)), 0, dl, true, 0, [], 0, 0⟩ := by
  unfold runAttempt
  rw [hc, ho]

/-- Reduction of `runAttempt` when the event loop exits with an error. -/
lemma runAttempt_loop_err (cfg : WSConfig) (env : AttemptEnv) (a n : Nat) (dl : Bool)
    (e : WSError) (d : List Nat) (cl pg : Nat)
    (hc : connect cfg.maxAttempts env.dialEnv a = ⟨none, n, dl⟩)
    (ho : cfg.onOpenErr = none)
    (hl : eventLoop cfg.loopCfg env.connectedAt env.events none false false [] 0 0 =
      ⟨LoopExit.err e, d, cl, pg⟩) :
    runAttempt cfg env a = ⟨RunRet.ret (some e), 0, dl, true, 1, d, cl, pg⟩ := by
  unfold runAttempt
  rw [hc, ho, hl]

/-- Reduction of `runAttempt` when the event loop is canceled. -/
lemma runAttempt_loop_canceled (cfg : WSConfig) (env : AttemptEnv) (a n : Nat) (dl : Bool)
    (d : List Nat) (cl pg : Nat)
    (hc : connect cfg.maxAttempts env.dialEnv a = ⟨none, n, dl⟩)
    (ho : cfg.onOpenErr = none)
    (hl : eventLoop cfg.loopCfg env.connectedAt env.events none false false [] 0 0 =
      ⟨LoopExit.canceled, d, cl, pg⟩) :
    runAttempt cfg env a = ⟨RunRet.ret none, 0, dl, true, 1, d, cl, pg⟩ := by
  unfold runAttempt
  rw [hc, ho, hl]

/-- Reduction of `runAttempt` when the trace ends before the loop returns. -/
lemma runAttempt_loop_stuck (cfg : WSConfig) (env : AttemptEnv) (a n : Nat) (dl : Bool)
    (d : List Nat) (cl pg : Nat)
    (hc : connect cfg.maxAttempts env.dialEnv a = ⟨none, n, dl⟩)
    (ho : cfg.onOpenErr = none)
    (hl : eventLoop cfg.loopCfg env.connectedAt env.events none false false [] 0 0 =
      ⟨LoopExit.stuck, d, cl, pg⟩) :
    runAttempt cfg env a = ⟨RunRet.stuck, 0, dl, true, 0, d, cl, pg⟩ := by
  unfold runAttempt
  rw [hc, ho, hl]

/-- A non-terminating event only updates loop state: processing pushes the
loop to the rest of the trace, appending the message id (if any) to the
delivered list. -/
lemma eventLoop_nonterm_step (cfg : LoopConfig) (ca : Int) (ev : LEvent) (rest : List LEvent)
    (lastMsg : Option Int) (ts ps : Bool) (d : List Nat) (cl pg : Nat)
    (h : nonTerm cfg ev = true) :
    ∃ lastMsg2 ts2 ps2 cl2 pg2,
      eventLoop cfg ca (ev :: rest) lastMsg ts ps d cl pg =
        eventLoop cfg ca rest lastMsg2 ts2 ps2 (d ++ evMsg ev) cl2 pg2 := by
  cases ev with
  | msg id now =>
    have hh : cfg.handler id = none := by
      unfold nonTerm at h
      exact eq_of_beq h
    exact ⟨some now, ts, ps, cl, pg, by simp [eventLoop, hh, evMsg]⟩
  | staleTick now =>
    by_cases hts : ts = true
    · exact ⟨lastMsg, ts, ps, cl, pg, by simp [eventLoop, hts, evMsg]⟩
    · by_cases hf : staleFires cfg.staleTimeout ca now lastMsg = true
      · exact ⟨lastMsg, true, ps, cl + 1, pg, by simp [eventLoop, hts, hf, evMsg]⟩
      · exact ⟨lastMsg, ts, ps, cl, pg, by simp [eventLoop, hts, hf, evMsg]⟩
  | pingTick res =>
    by_cases hp : (cfg.pingConfigured && !ps) = true
    · cases res with
      | some c => exact ⟨lastMsg, ts, true, cl, pg + 1, by simp [eventLoop, hp, evMsg]⟩
      | none => exact ⟨lastMsg, ts, ps, cl, pg + 1, by simp [eventLoop, hp, evMsg]⟩
    · exact ⟨lastMsg, ts, ps, cl, pg, by simp [eventLoop, hp, evMsg]⟩
  | readFail code => simp [nonTerm] at h
  | ctxDone => simp [nonTerm] at h

/-- The message ids of a trace decompose across its head. -/
lemma msgIds_cons (ev : LEvent) (rest : List LEvent) :
    msgIds (ev :: rest) = evMsg ev ++ msgIds rest := by
  cases ev <;> simp [msgIds, evMsg]

/-- A prefix of non-terminating events is consumed without exiting: the loop
continues into the remaining trace with the message ids of the prefix
appended to the delivered list. -/
lemma eventLoop_nonterm_prefix (cfg : LoopConfig) (ca : Int) (pre : List LEvent) :
    ∀ (post : List LEvent) (lastMsg : Option Int) (ts ps : Bool) (d : List Nat) (cl pg : Nat),
      (∀ ev ∈ pre, nonTerm cfg ev = true) →
      ∃ lastMsg2 ts2 ps2 cl2 pg2,
        eventLoop cfg ca (pre ++ post) lastMsg ts ps d cl pg =
          eventLoop cfg ca post lastMsg2 ts2 ps2 (d ++ msgIds pre) cl2 pg2 := by
  induction pre with
  | nil =>
    intro post lastMsg ts ps d cl pg _
    exact ⟨lastMsg, ts, ps, cl, pg, by simp [msgIds]⟩
  | cons ev pre ih =>
    intro post lastMsg ts ps d cl pg h
    obtain ⟨l2, t2, p2, c2, g2, h1⟩ :=
      eventLoop_nonterm_step cfg ca ev (pre ++ post) lastMsg ts ps d cl pg (h ev (by simp))
    obtain ⟨l3, t3, p3, c3, g3, h2⟩ :=
      ih post l2 t2 p2 (d ++ evMsg ev) c2 g2 (fun e he => h e (by simp [he]))
    refine ⟨l3, t3, p3, c3, g3, ?_⟩
    rw [List.cons_append, h1, h2, msgIds_cons, ← List.append_assoc]

/-- Once the stale ticker is stopped, no further stale closes occur. -/
lemma eventLoop_staleCloses_stopped (cfg : LoopConfig) (ca : Int) (evs : List LEvent) :
    ∀ (lastMsg : Option Int) (ps : Bool) (d : List Nat) (cl pg : Nat),
      (eventLoop cfg ca evs lastMsg true ps d cl pg).staleCloses = cl := by
  induction evs with
  | nil => intro lastMsg ps d cl pg; rfl
  | cons ev rest ih =>
    intro lastMsg ps d cl pg
    cases ev with
    | msg id now =>
      cases hh : cfg.handler id with
      | some c => simp [eventLoop, hh]
      | none => simp [eventLoop, hh, ih]
    | staleTick now => simp [eventLoop, ih]
    | pingTick res =>
      by_cases hp : (cfg.pingConfigured && !ps) = true
      · cases res with
        | some c => simp [eventLoop, hp, ih]
        | none => simp [eventLoop, hp, ih]
      · simp [eventLoop, hp, ih]
    | readFail code => rfl
    | ctxDone => rfl

/-- The stale detector closes at most once over any trace: a close stops the
ticker, after which no further closes occur. -/
lemma eventLoop_staleCloses_le (cfg : LoopConfig) (ca : Int) (evs : List LEvent) :
    ∀ (lastMsg : Option Int) (ps : Bool) (d : List Nat) (cl pg : Nat),
      (eventLoop cfg ca evs lastMsg false ps d cl pg).staleCloses ≤ cl + 1 := by
  induction evs with
  | nil => intro lastMsg ps d cl pg; exact Nat.le_succ cl
  | cons ev rest ih =>
    intro lastMsg ps d cl pg
    cases ev with
    | msg id now =>
      cases hh : cfg.handler id with
      | some c => simp [eventLoop, hh]
      | none => simp only [eventLoop, hh]; exact ih (some now) ps (d ++ [id]) cl pg
    | staleTick now =>
      by_cases hf : staleFires cfg.staleTimeout ca now lastMsg = true
      · simp only [eventLoop, hf, if_true, Bool.false_eq_true, if_false]
        rw [eventLoop_staleCloses_stopped]
      · simp only [eventLoop, hf, Bool.false_eq_true, if_false]
        exact ih lastMsg ps d cl pg
    | pingTick res =>
      by_cases hp : (cfg.pingConfigured && !ps) = true
      · cases res with
        | some c => simp only [eventLoop, hp, if_true]; exact ih lastMsg true d cl (pg + 1)
        | none => simp only [eventLoop, hp, if_true]; exact ih lastMsg ps d cl (pg + 1)
      · simp only [eventLoop, hp, if_false]; exact ih lastMsg ps d cl pg
    | readFail code => exact Nat.le_succ cl
    | ctxDone => exact Nat.le_succ cl

/-- Once the ping goroutine has returned, the ping handler is never invoked
again on the connection. -/
lemma eventLoop_pingCalls_stopped (cfg : LoopConfig) (ca : Int) (evs : List LEvent) :
    ∀ (lastMsg : Option Int) (ts : Bool) (d : List Nat) (cl pg : Nat),
      (eventLoop cfg ca evs lastMsg ts true d cl pg).pingCalls = pg := by
  induction evs with
  | nil => intro lastMsg ts d cl pg; rfl
  | cons ev rest ih =>
    intro lastMsg ts d cl pg
    cases ev with
    | msg id now =>
      cases hh : cfg.handler id with
      | some c => simp [eventLoop, hh]
      | none => simp [eventLoop, hh, ih]
    | staleTick now =>
      by_cases hts : ts = true
      · simp [eventLoop, hts, ih]
      · by_cases hf : staleFires cfg.staleTimeout ca now lastMsg = true
        · simp [eventLoop, hts, hf, ih]
        · simp [eventLoop, hts, hf, ih]
    | pingTick res => simp [eventLoop, ih]
    | readFail code => rfl
    | ctxDone => rfl

/-- With an always-true policy, a positive ceiling K, and every dial failing,
the outer loop keeps retrying until the ceiling trips: starting from attempt
count `a ≤ K` with enough environments, it returns the max-attempts error,
performs exactly `K - a` further dials, and never consults the policy with a
max-attempts error. -/
lemma startLoop_dialfail_exhausts (cfg : WSConfig) (policy : Option WSError → Bool)
    (hpol : ∀ e, policy e = true) (hK : 0 < cfg.maxAttempts) (envs : List AttemptEnv) :
    ∀ (a dials : Nat) (obs : List (Option WSError)),
      (∀ v ∈ envs, dialFails v) → a ≤ cfg.maxAttempts →
      cfg.maxAttempts + 1 ≤ a + envs.length →
      (startLoop cfg policy envs a dials obs).ret =
        StartRet.ret (some (WSError.maxAttempts cfg.maxAttempts)) ∧
      (startLoop cfg policy envs a dials obs).dials = dials + (cfg.maxAttempts - a) ∧
      ∀ o ∈ (startLoop cfg policy envs a dials obs).policyObs,
        isMaxAttemptsError o = false ∨ o ∈ obs := by
  induction envs with
  | nil =>
    intro a dials obs _ ha hlen
    simp only [List.length_nil] at hlen
    exact absurd hlen (by omega)
  | cons env rest ih =>
    intro a dials obs hfail ha hlen
    obtain ⟨hdo, hep, hds⟩ := hfail env (by simp)
    obtain ⟨c, hc⟩ := Option.isSome_iff_exists.mp hds
    by_cases hge : cfg.maxAttempts ≤ a
    · have haK : a = cfg.maxAttempts := le_antisymm ha hge
      have hcon : connect cfg.maxAttempts env.dialEnv a =
          ⟨some (WSError.maxAttempts a), a + 1, false⟩ :=
        connect_max cfg.maxAttempts a env.dialEnv ⟨hK, hge⟩
      have hr := runAttempt_connect_err cfg env a (WSError.maxAttempts a) (a + 1) false hcon
      simp only [startLoop]
      rw [hr]
      subst haK
      simp only [isMaxAttemptsError]
      refine ⟨by simp, by simp, fun o ho => Or.inr (by simpa using ho)⟩
    · have hlt : a < cfg.maxAttempts := by omega
      have hcon : connect cfg.maxAttempts env.dialEnv a =
          ⟨some (WSError.dial c), a + 1, true⟩ :=
        connect_dial_fail_fields cfg.maxAttempts a c env.dialEnv (by omega) hdo hep hc
      have hr := runAttempt_connect_err cfg env a (WSError.dial c) (a + 1) true hcon
      have IH := ih (a + 1) (dials + 1) (obs ++ [some (WSError.dial c)])
        (fun v hv => hfail v (by simp [hv])) (by omega)
        (by simp only [List.length_cons] at hlen; omega)
      simp only [startLoop]
      rw [hr]
      simp only [isMaxAttemptsError, hpol, if_true, Bool.false_eq_true, if_false]
      refine ⟨IH.1, ?_, ?_⟩
      · rw [IH.2.1]
        omega
      · intro o ho
        rcases IH.2.2 o ho with h | h
        · exact Or.inl h
        · rcases List.mem_append.mp h with h2 | h2
          · exact Or.inr h2
          · simp only [List.mem_singleton] at h2
            subst h2
            exact Or.inl rfl

/-- C1: the outer retry loop of `Start`. First half: when the policy
declines the terminating error of the first attempt (or that error is the
max-attempts error, which returns even earlier), `start` returns that error
having dialed at most once. Second half: with an always-accepting policy,
ceiling K > 0, and dials that keep failing, exactly K dials are made, `start`
returns the max-attempts error, and the policy is never consulted with that
error. -/
theorem C1_policy_decline_and_ceiling (cfg : WSConfig) (policy policyT : Option WSError → Bool)
    (env : AttemptEnv) (rest envs : List AttemptEnv) (e : Option WSError)
    (hfirst : (runAttempt cfg env 0).ret = RunRet.ret e)
    (hdecline : policy e = false)
    (hT : ∀ x, policyT x = true)
    (hfail : ∀ v ∈ envs, dialFails v)
    (hK : 0 < cfg.maxAttempts)
    (hlen : cfg.maxAttempts + 1 ≤ envs.length) :
    ((start cfg policy (env :: rest)).ret = StartRet.ret e ∧
     (start cfg policy (env :: rest)).dials ≤ 1) ∧
    ((start cfg policyT envs).ret = StartRet.ret (some (WSError.maxAttempts cfg.maxAttempts)) ∧
     (start cfg policyT envs).dials = cfg.maxAttempts ∧
     ∀ o ∈ (start cfg policyT envs).policyObs, isMaxAttemptsError o = false) := by
  constructor
  · rcases hr : runAttempt cfg env 0 with ⟨rret, n, dl, oo, oc, del, sc, pc⟩
    rw [hr] at hfirst
    simp only at hfirst
    subst hfirst
    unfold start
    simp only [startLoop]
    rw [hr]
    by_cases hm : isMaxAttemptsError e = true
    · simp only [hm, if_true]
      exact ⟨trivial, by cases dl <;> simp⟩
    · simp only [hm, Bool.false_eq_true, if_false, hdecline]
      exact ⟨trivial, by cases dl <;> simp⟩
  · have main := startLoop_dialfail_exhausts cfg policyT hT hK envs 0 0 [] hfail
      (by omega) (by omega)
    unfold start
    refine ⟨main.1, ?_, ?_⟩
    · rw [main.2.1]
      omega
    · intro o ho
      rcases main.2.2 o ho with h | h
      · exact h
      · simp at h

/-- Witness for C1: a declining policy on a first dial failure, and an
always-true policy against ceiling 2 with three failing environments. -/
theorem C1_policy_decline_and_ceiling_witness :
    ((start cfg1w policyFalse (env1w :: [])).ret = StartRet.ret (some (WSError.dial 3)) ∧
     (start cfg1w policyFalse (env1w :: [])).dials ≤ 1) ∧
    ((start cfg1w policyTrue envs1w).ret =
        StartRet.ret (some (WSError.maxAttempts cfg1w.maxAttempts)) ∧
     (start cfg1w policyTrue envs1w).dials = cfg1w.maxAttempts ∧
     ∀ o ∈ (start cfg1w policyTrue envs1w).policyObs, isMaxAttemptsError o = false) :=
  C1_policy_decline_and_ceiling cfg1w policyFalse policyTrue env1w [] envs1w
    (some (WSError.dial 3)) (by decide) rfl (fun _ => rfl) (by decide) (by decide) (by decide)

/-- C2 amended: when the context fires during the event loop, the attempt
ends with a nil error, on-open having run implies on-close runs exactly once,
and `Start` then consults the reconnect policy with that nil error: when the
policy declines (as the default policy does), `start` returns nil, with the
nil error recorded as the one consultation. -/
theorem C2_cancel_nil_policy_consulted (cfg : WSConfig) (policy : Option WSError → Bool)
    (env : AttemptEnv) (rest : List AttemptEnv) (pre post : List LEvent)
    (h1 : env.dialEnv = dialOkEnv) (h2 : cfg.onOpenErr = none)
    (h3 : env.events = pre ++ LEvent.ctxDone :: post)
    (h4 : ∀ ev ∈ pre, nonTerm cfg.loopCfg ev = true)
    (h5 : policy none = false) :
    (runAttempt cfg env 0).ret = RunRet.ret none ∧
    (runAttempt cfg env 0).onOpenCalled = true ∧
    (runAttempt cfg env 0).onCloseCalls = 1 ∧
    (start cfg policy (env :: rest)).ret = StartRet.ret none ∧
    (start cfg policy (env :: rest)).policyObs = [none] := by
  have hc : connect cfg.maxAttempts env.dialEnv 0 = ⟨none, 1, true⟩ :=
    connect_zero_ok cfg.maxAttempts env.dialEnv h1
  obtain ⟨l2, t2, p2, c2, g2, hpre⟩ :=
    eventLoop_nonterm_prefix cfg.loopCfg env.connectedAt pre (LEvent.ctxDone :: post)
      none false false [] 0 0 h4
  have hl : eventLoop cfg.loopCfg env.connectedAt env.events none false false [] 0 0 =
      ⟨LoopExit.canceled, [] ++ msgIds pre, c2, g2⟩ := by
    rw [h3, hpre]
    rfl
  have hr := runAttempt_loop_canceled cfg env 0 1 true ([] ++ msgIds pre) c2 g2 hc h2 hl
  refine ⟨by rw [hr], by rw [hr], by rw [hr], ?_, ?_⟩
  · unfold start
    simp only [startLoop]
    rw [hr]
    simp [isMaxAttemptsError, h5]
  · unfold start
    simp only [startLoop]
    rw [hr]
    simp [isMaxAttemptsError, h5]

/-- Witness for C2 at the concrete cancellation scenario with the default
declining policy. -/
theorem C2_cancel_nil_policy_consulted_witness :
    (runAttempt cfg2 env2 0).ret = RunRet.ret none ∧
    (runAttempt cfg2 env2 0).onOpenCalled = true ∧
    (runAttempt cfg2 env2 0).onCloseCalls = 1 ∧
    (start cfg2 policyFalse (env2 :: [])).ret = StartRet.ret none ∧
    (start cfg2 policyFalse (env2 :: [])).policyObs = [none] :=
  C2_cancel_nil_policy_consulted cfg2 policyFalse env2 [] [LEvent.msg 1 1001] []
    rfl rfl rfl (by decide) rfl

/-- C3 amended: a ping-handler error on a keepalive tick makes the ping
goroutine return — the handler is invoked that one time and never again on
this connection — while the event loop merely continues with the remaining
trace: the error is not turned into a connection error and does not end the
attempt. -/
theorem C3_ping_error_stops_keepalive_only (cfg : LoopConfig) (ca : Int)
    (evs : List LEvent) (lastMsg : Option Int) (ts : Bool) (d : List Nat) (cl pg : Nat)
    (c : Nat) (hping : cfg.pingConfigured = true) :
    eventLoop cfg ca (LEvent.pingTick (some c) :: evs) lastMsg ts false d cl pg =
      eventLoop cfg ca evs lastMsg ts true d cl (pg + 1) ∧
    (eventLoop cfg ca evs lastMsg ts true d cl pg).pingCalls = pg := by
  constructor
  · simp [eventLoop, hping]
  · exact eventLoop_pingCalls_stopped cfg ca evs lastMsg ts d cl pg

/-- Witness for C3 at a concrete trace on a ping-configured client. -/
theorem C3_ping_error_stops_keepalive_only_witness :
    eventLoop pingCfg 1000 (LEvent.pingTick (some 7) :: [LEvent.ctxDone]) none false false [] 0 0 =
      eventLoop pingCfg 1000 [LEvent.ctxDone] none false true [] 0 (0 + 1) ∧
    (eventLoop pingCfg 1000 [LEvent.ctxDone] none false true [] 0 0).pingCalls = 0 :=
  C3_ping_error_stops_keepalive_only pingCfg 1000 [LEvent.ctxDone] none false [] 0 0 7 rfl

/-- C5: when the handler fails on message k, the connection attempt
terminates with exactly that handler error, and the messages delivered are
exactly those preceding k plus k itself — nothing after k is delivered. -/
theorem C5_handler_error_terminal (cfg : WSConfig) (env : AttemptEnv)
    (pre post : List LEvent) (k : Nat) (now : Int) (c : Nat)
    (h1 : env.dialEnv = dialOkEnv) (h2 : cfg.onOpenErr = none)
    (h3 : env.events = pre ++ LEvent.msg k now :: post)
    (h4 : ∀ ev ∈ pre, nonTerm cfg.loopCfg ev = true)
    (h5 : cfg.loopCfg.handler k = some c) :
    (runAttempt cfg env 0).ret = RunRet.ret (some (WSError.handlerFail c)) ∧
    (runAttempt cfg env 0).delivered = msgIds pre ++ [k] := by
  have hc : connect cfg.maxAttempts env.dialEnv 0 = ⟨none, 1, true⟩ :=
    connect_zero_ok cfg.maxAttempts env.dialEnv h1
  obtain ⟨l2, t2, p2, c2, g2, hpre⟩ :=
    eventLoop_nonterm_prefix cfg.loopCfg env.connectedAt pre (LEvent.msg k now :: post)
      none false false [] 0 0 h4
  have hl : eventLoop cfg.loopCfg env.connectedAt env.events none false false [] 0 0 =
      ⟨LoopExit.err (WSError.handlerFail c), ([] ++ msgIds pre) ++ [k], c2, g2⟩ := by
    rw [h3, hpre]
    simp [eventLoop, h5]
  have hr := runAttempt_loop_err cfg env 0 1 true (WSError.handlerFail c)
    (([] ++ msgIds pre) ++ [k]) c2 g2 hc h2 hl
  refine ⟨by rw [hr], ?_⟩
  rw [hr]
  simp

/-- Witness for C5: three messages, the handler fails on the second, so only
messages 1 and 2 are delivered, never message 3. -/
theorem C5_handler_error_terminal_witness :
    (runAttempt cfg5w env5w 0).ret = RunRet.ret (some (WSError.handlerFail 11)) ∧
    (runAttempt cfg5w env5w 0).delivered = msgIds [LEvent.msg 1 1001] ++ [2] :=
  C5_handler_error_terminal cfg5w env5w [LEvent.msg 1 1001] [LEvent.msg 3 1003] 2 1002 11
    rfl rfl rfl (by decide) rfl

/-- C6 amended: on every attempt where on-open ran and returned nil, the
on-close callback runs exactly once whenever the attempt returns, however it
terminates; and the on-close error never influences the outcome of the
attempt — the result of `run` is identical for any two on-close results.
(When on-open returned an error, on-close is skipped; see the
counterexample.) -/
theorem C6_onclose_once_after_ok_onopen (cfg : WSConfig) (env : AttemptEnv) (a : Nat)
    (e : Option WSError) (x y : Option Nat)
    (hopen : cfg.onOpenErr = none)
    (hcalled : (runAttempt cfg env a).onOpenCalled = true)
    (hret : (runAttempt cfg env a).ret = RunRet.ret e) :
    (runAttempt cfg env a).onCloseCalls = 1 ∧
    runAttempt ⟨cfg.maxAttempts, cfg.loopCfg, cfg.onOpenErr, x⟩ env a =
      runAttempt ⟨cfg.maxAttempts, cfg.loopCfg, cfg.onOpenErr, y⟩ env a := by
  refine ⟨?_, rfl⟩
  rcases hc : connect cfg.maxAttempts env.dialEnv a with ⟨err, n, dl⟩
  cases err with
  | some e2 =>
    rw [runAttempt_connect_err cfg env a e2 n dl hc] at hcalled
    simp at hcalled
  | none =>
    rcases hl : eventLoop cfg.loopCfg env.connectedAt env.events none false false [] 0 0
      with ⟨ex, d, cl, pg⟩
    cases ex with
    | err e2 => rw [runAttempt_loop_err cfg env a n dl e2 d cl pg hc hopen hl]
    | canceled => rw [runAttempt_loop_canceled cfg env a n dl d cl pg hc hopen hl]
    | stuck =>
      rw [runAttempt_loop_stuck cfg env a n dl d cl pg hc hopen hl] at hret
      simp at hret

/-- Witness for C6 at the concrete cancellation scenario, comparing on-close
results `some 1` and `none`. -/
theorem C6_onclose_once_after_ok_onopen_witness :
    (runAttempt cfg2 env2 0).onCloseCalls = 1 ∧
    runAttempt ⟨cfg2.maxAttempts, cfg2.loopCfg, cfg2.onOpenErr, some 1⟩ env2 0 =
      runAttempt ⟨cfg2.maxAttempts, cfg2.loopCfg, cfg2.onOpenErr, none⟩ env2 0 :=
  C6_onclose_once_after_ok_onopen cfg2 env2 0 none (some 1) none rfl (by decide) (by decide)

/-- C7 amended: with a nonzero staleness timeout T, the 60-unit grace window
protects exactly the connections that have not yet received any message:
such a connection younger than the window is never closed by a stale tick,
but once it is at least the window old (and the tick lies after the modelled
zero instant by more than T) a tick does close it; a connection whose last
message is older than T is closed regardless of its age; a firing tick
closes the connection and stops the ticker (the loop continues with the
ticker stopped and the close counted once); and over any trace the stale
detector closes at most once. -/
theorem C7_stale_grace_and_single_close (T ca now m : Int) (cfg : LoopConfig)
    (evs : List LEvent) (lastMsg : Option Int) (ps : Bool) (d : List Nat) (pg : Nat)
    (hT : T ≠ 0) :
    (now - graceWindow < ca → staleFires T ca now none = false) ∧
    (ca ≤ now - graceWindow → 0 < now - T → staleFires T ca now none = true) ∧
    (m < now - T → staleFires T ca now (some m) = true) ∧
    (staleFires cfg.staleTimeout ca now lastMsg = true →
      eventLoop cfg ca (LEvent.staleTick now :: evs) lastMsg false ps d 0 pg =
        eventLoop cfg ca evs lastMsg true ps d 1 pg) ∧
    (eventLoop cfg ca evs lastMsg false ps d 0 pg).staleCloses ≤ 1 := by
  refine ⟨?_, ?_, ?_, ?_, ?_⟩
  · intro hy
    simp [staleFires, staleSkip, hT, hy]
  · intro hold hpos
    have hno : ¬(now - graceWindow < ca) := not_lt.mpr hold
    simp [staleFires, staleSkip, hT, hno, hpos]
  · intro hsil
    simp [staleFires, staleSkip, hsil, hT]
  · intro hf
    simp [eventLoop, hf]
  · exact eventLoop_staleCloses_le cfg ca evs lastMsg ps d 0 pg

/-- Witness for C7 at timeout 10, a connection made at 1000 whose last
message was at 1001, examined at 1012. -/
theorem C7_stale_grace_and_single_close_witness :
    ((1012 : Int) - graceWindow < 1000 → staleFires 10 1000 1012 none = false) ∧
    ((1000 : Int) ≤ 1012 - graceWindow → (0 : Int) < 1012 - 10 →
      staleFires 10 1000 1012 none = true) ∧
    ((1001 : Int) < 1012 - 10 → staleFires 10 1000 1012 (some 1001) = true) ∧
    (staleFires staleCfg.staleTimeout 1000 1012 (some 1001) = true →
      eventLoop staleCfg 1000 (LEvent.staleTick 1012 :: [LEvent.readFail 4])
          (some 1001) false false [] 0 0 =
        eventLoop staleCfg 1000 [LEvent.readFail 4] (some 1001) true false [] 1 0) ∧
    (eventLoop staleCfg 1000 [LEvent.readFail 4] (some 1001) false false [] 0 0).staleCloses ≤ 1 :=
  C7_stale_grace_and_single_close 10 1000 1012 1001 staleCfg [LEvent.readFail 4]
    (some 1001) false [] 0 (by decide)

end Apic
